import Mathlib

/-!
Verification of the colmena deployment tool (key handling, the local host
driver, and the apply command) against its specification.

The Rust source is embedded shallowly: each Rust function the claims touch
becomes a Lean definition with the same control flow; effectful operations
are modelled by the value they compute plus an explicit trace of the
effects they would perform.  Types that live outside the provided source
files (`Goal`, `NixError`, `StorePath` parsing, `Options` defaults) are
modelled from the specification and say so in their doc comments.
-/

namespace Colmena

/-! ## Key data model (src/nix/key.rs) -/

/-- `KeySource` from key.rs: the origin of a key's material.
Paths (`PathBuf`) are modelled as strings. -/
inductive KeySource where
  | Text (content : String)
  | Command (command : List String)
  | File (path : String)
  deriving DecidableEq, Repr

/-- `KeySources` from key.rs: the raw deserialized record with one
optional field per possible source. -/
structure KeySources where
  text : Option String
  command : Option (List String)
  file : Option String
  deriving DecidableEq, Repr

/-- `TryFrom<KeySources> for KeySource` (key.rs lines 30-49): the
conversion succeeds exactly when one source field is populated.  The Rust
error is a formatted string; the model keeps a fixed message since the
claims only inspect success or failure. -/
def KeySource.tryFrom (ks : KeySources) : Except String KeySource :=
  match ks.text, ks.command, ks.file with
  | some text, none, none => .ok (KeySource.Text text)
  | none, some command, none => .ok (KeySource.Command command)
  | none, none, some file => .ok (KeySource.File file)
  | _, _, _ => .error "Somehow 0 or more than 1 key source was specified"

/-- The number of populated fields in a `KeySources` record. -/
def KeySources.numPresent (ks : KeySources) : Nat :=
  (if ks.text.isSome then 1 else 0)
    + (if ks.command.isSome then 1 else 0)
    + (if ks.file.isSome then 1 else 0)

/-- `Key` from key.rs: a key source plus destination metadata. -/
structure Key where
  source : KeySource
  dest_dir : String
  user : String
  group : String
  permissions : String
  deriving DecidableEq, Repr

/-- `Key::dest_dir` accessor (key.rs line 105). -/
def Key.dest_dir_get (k : Key) : String := k.dest_dir

/-- `Key::user` accessor (key.rs line 106). -/
def Key.user_get (k : Key) : String := k.user

/-- `Key::group` accessor (key.rs line 107): the source body returns
`&self.user`, not `&self.group`. -/
def Key.group_get (k : Key) : String := k.user

/-- `Key::permissions` accessor (key.rs line 108). -/
def Key.permissions_get (k : Key) : String := k.permissions

/-- `validate_unix_name` (key.rs lines 111-118): the name must match the
anchored regex `[a-z][-a-z0-9]*`, i.e. a lowercase letter followed by
lowercase letters, digits and dashes. -/
def validate_unix_name (name : String) : Bool :=
  match name.data with
  | [] => false
  | c :: rest =>
      (('a' ≤ c && c ≤ 'z')
        && rest.all fun d => d = '-' || ('a' ≤ d && d ≤ 'z') || ('0' ≤ d && d ≤ '9'))

/-- `validate_dest_dir` (key.rs lines 120-126): `PathBuf::has_root` on a
Unix path, i.e. the path begins with a slash. -/
def validate_dest_dir (dir : String) : Bool :=
  match dir.data with
  | '/' :: _ => true
  | _ => false

/-- The derived `Validate` impl on `Key`: the two custom field validators
(user and group names, destination directory); no other field carries a
validation attribute. -/
def Key.validate (k : Key) : Bool :=
  validate_dest_dir k.dest_dir && validate_unix_name k.user && validate_unix_name k.group

/-- What `Key::reader` (key.rs lines 81-104) produces, with the effectful
branches reduced to the data that determines them.  `panics` marks the
out-of-bounds indexing `&command[0]` performed when the command vector is
empty; otherwise the function builds a cursor, a spawned command (program
at index 0, arguments from index 1 on) or an opened file. -/
inductive ReaderOutcome where
  | panics
  | cursor (content : String)
  | spawn (pathname : String) (argv : List String)
  | file (path : String)
  deriving DecidableEq, Repr

/-- `Key::reader` (key.rs lines 81-104) as the outcome it reaches before
any I/O happens. -/
def Key.reader_outcome (k : Key) : ReaderOutcome :=
  match k.source with
  | KeySource.Text content => ReaderOutcome.cursor content
  | KeySource.Command command =>
      match command with
      | [] => ReaderOutcome.panics
      | pathname :: argv => ReaderOutcome.spawn pathname argv
  | KeySource.File path => ReaderOutcome.file path

/-! ## Goals, errors and store paths

The `Goal`, `NixError` and `StorePath` types live in source files outside
the provided set (only their uses appear in local.rs and apply.rs), so
they are modelled from the specification. -/

/-- Modelled from the spec: `Goal` is "one of: build (stop after
realization), push (also copy closure to target), switch | boot | test |
dry-activate (also activate with the named activation mode), keys (only
upload pre-activation keys and stop)". -/
inductive Goal where
  | Build
  | Push
  | Switch
  | Boot
  | Test
  | DryActivate
  | UploadKeys
  deriving DecidableEq, Repr

/-- Modelled from the spec: the goal name used on the command line and
passed to the activation command ("invokes the profile's activation
command with the goal name as argument"). -/
def Goal.name : Goal → String
  | Goal.Build => "build"
  | Goal.Push => "push"
  | Goal.Switch => "switch"
  | Goal.Boot => "boot"
  | Goal.Test => "test"
  | Goal.DryActivate => "dry-activate"
  | Goal.UploadKeys => "keys"

/-- Modelled from the spec: `Goal::from_str`, the inverse of `Goal.name`
on the seven valid goal strings accepted by the apply subcommand. -/
def Goal.from_str (s : String) : Option Goal :=
  if s = "build" then some Goal.Build
  else if s = "push" then some Goal.Push
  else if s = "switch" then some Goal.Switch
  else if s = "boot" then some Goal.Boot
  else if s = "test" then some Goal.Test
  else if s = "dry-activate" then some Goal.DryActivate
  else if s = "keys" then some Goal.UploadKeys
  else none

/-- Modelled from the spec: `Goal::is_real_goal` holds exactly for the
goals that activate a configuration.  The goal-skip laws give "goal=build
implies no Pushing/Activating events; goal=push implies no Activating
events; goal=keys implies no Pushing/Activating/Build events", leaving
switch, boot, test and dry-activate as the activating (real) goals. -/
def Goal.is_real_goal : Goal → Bool
  | Goal.Switch => true
  | Goal.Boot => true
  | Goal.Test => true
  | Goal.DryActivate => true
  | _ => false

/-- Modelled from the spec: `Goal::should_switch_profile` is "true for
switch and boot". -/
def Goal.should_switch_profile : Goal → Bool
  | Goal.Switch => true
  | Goal.Boot => true
  | _ => false

/-- Modelled from the spec: `Goal::requires_target_host` is "false only
for build". -/
def Goal.requires_target_host : Goal → Bool
  | Goal.Build => false
  | _ => true

/-- Modelled from the spec's error taxonomy, restricted to the kinds the
claims touch: unsupported (driver does not implement the requested goal)
and internal malformed subprocess output (a realization output line that
is not a valid store path). -/
inductive NixError where
  | Unsupported
  | InvalidStorePath
  deriving DecidableEq, Repr

/-- `StorePath`: an opaque content-addressed path, modelled as the string
it wraps. -/
structure StorePath where
  path : String
  deriving DecidableEq, Repr

/-- Modelled from the spec: "Valid store paths match a fixed lexical form
(rejected if malformed)" — a path inside the store directory, taken here
as the `/nix/store/` prefix. -/
def is_valid_store_path (s : String) : Bool :=
  "/nix/store/".isPrefixOf s

/-- Modelled from the spec: `TryFrom<String> for StorePath`, the
line-level parse used by `realize_remote`; a malformed line is rejected
with the invalid-store-path error. -/
def StorePath.tryFrom (s : String) : Except NixError StorePath :=
  if is_valid_store_path s then .ok ⟨s⟩ else .error NixError.InvalidStorePath

/-! ## The local host driver (src/nix/host/local.rs) -/

/-- `JobHandle`: an opaque producer capability for one progress job.  The
claims only compare handles for identity, so it is modelled by a stable
id. -/
structure JobHandle where
  id : Nat
  deriving DecidableEq, Repr

/-- `Local` (local.rs lines 18-21): the local machine driver's state. -/
structure Local where
  job : Option JobHandle
  nix_options : List String
  deriving DecidableEq, Repr

/-- `Local::new` (local.rs lines 24-29). -/
def Local.new (nix_options : List String) : Local :=
  { job := none, nix_options := nix_options }

/-- `CopyDirection` for `copy_closure`: orchestrator-to-node or back. -/
inductive CopyDirection where
  | ToRemote
  | ToLocal
  deriving DecidableEq, Repr

/-- `CopyOptions` honoured by `copy_closure`: the transport toggles the
spec lists for the copy step. -/
structure CopyOptions where
  include_outputs : Bool
  use_substitutes : Bool
  gzip : Bool
  deriving DecidableEq, Repr

/-- `Local::copy_closure` (local.rs lines 34-36): returns `Ok(())`
without touching the driver state.  The model returns the result paired
with the (unchanged) driver state. -/
def Local.copy_closure (l : Local) (_closure : StorePath)
    (_direction : CopyDirection) (_options : CopyOptions) :
    Except NixError Unit × Local :=
  (.ok (), l)

/-- Rust `str::lines` as used on the captured stdout: splits at `\n`,
also consuming a `\r` immediately before the `\n`, and does not yield a
trailing empty line for a final line ending.  `acc` holds the current
line's characters in reverse. -/
def rustLinesAux : List Char → List Char → List (List Char)
  | [], [] => []
  | [], acc => [acc.reverse]
  | '\n' :: rest, acc =>
      (match acc with
       | '\r' :: acc2 => acc2.reverse
       | _ => acc.reverse) :: rustLinesAux rest []
  | c :: rest, acc => rustLinesAux rest (c :: acc)

/-- Rust `str::lines` on a string, producing the list of lines. -/
def rustLines (s : String) : List String :=
  (rustLinesAux s.data []).map fun l => String.mk l

/-- `collect::<NixResult<Vec<StorePath>>>` over the per-line parses:
keeps every parsed path in order, or stops at the first line that fails
to parse. -/
def collectStorePaths : List String → Except NixError (List StorePath)
  | [] => .ok []
  | l :: rest =>
      match StorePath.tryFrom l with
      | .error e => .error e
      | .ok p =>
          match collectStorePaths rest with
          | .error e => .error e
          | .ok ps => .ok (p :: ps)

/-- The parsing tail of `Local::realize_remote` (local.rs lines 38-56):
after `nix-store --no-gc-warning --realise` runs, the captured stdout is
split into lines and each line is parsed as a store path, collecting into
a single result. -/
def realize_remote_parse (stdout : String) : Except NixError (List StorePath) :=
  collectStorePaths (rustLines stdout)

/-- Modelled from the spec: the system profile location pointed at the
new path when a goal switches profiles.  The claims never inspect the
string itself. -/
def SYSTEM_PROFILE : String := "/nix/var/nix/profiles/system"

/-- `Profile`: a distinguished store path carrying an activation
command. -/
structure Profile where
  path : StorePath
  deriving DecidableEq, Repr

/-- Modelled from the spec: `Profile::activation_command` — the command
derivable from the profile that is invoked "with the goal name as
argument"; it exists exactly for real (activating) goals. -/
def Profile.activation_command (p : Profile) (goal : Goal) : Option (List String) :=
  if goal.is_real_goal then
    some [p.path.path ++ "/bin/switch-to-configuration", goal.name]
  else
    none

/-- One effect performed by `Local::activate`, in order: pointing the
system profile at the new path (`nix-env --profile SYSTEM_PROFILE --set
path`) or running the activation command. -/
inductive ActivateEffect where
  | setProfile (argv : List String)
  | runActivation (argv : List String)
  deriving DecidableEq, Repr

/-- The result of `Local::activate` as control flow decides it:
an early `Unsupported` error with nothing executed, a panic from the
`unwrap` on a missing activation command, or the ordered list of effects
issued. -/
inductive ActivateOutcome where
  | error (e : NixError)
  | panics
  | ran (effects : List ActivateEffect)
  deriving DecidableEq, Repr

/-- `Local::activate` (local.rs lines 66-92): rejects non-real goals with
`Unsupported` before doing anything; for real goals, first switches the
system profile when the goal calls for it, then unwraps the activation
command and runs it (program at index 0, arguments from index 1 on). -/
def Local.activate (_l : Local) (profile : Profile) (goal : Goal) : ActivateOutcome :=
  if !goal.is_real_goal then
    ActivateOutcome.error NixError.Unsupported
  else
    let switchEffects :=
      if goal.should_switch_profile then
        [ActivateEffect.setProfile
          ["nix-env", "--profile", SYSTEM_PROFILE, "--set", profile.path.path]]
      else
        []
    match profile.activation_command goal with
    | none => ActivateOutcome.panics
    | some cmd => ActivateOutcome.ran (switchEffects ++ [ActivateEffect.runActivation cmd])

/-! ## The apply command (src/command/apply.rs) -/

/-- `Options`: the deployment-wide toggles the spec enumerates. -/
structure Options where
  substituters_push : Bool
  gzip : Bool
  upload_keys : Bool
  create_gc_roots : Bool
  force_replace_unknown_profiles : Bool
  deriving DecidableEq, Repr

/-- Modelled from the spec: `Options::default`.  The defaulted state of
the toggles; only `create_gc_roots` survives into the installed options
(the others are overwritten unconditionally), and GC roots are
materialized only "when Options.create-gc-roots is set" via the
`keep-result` flag, so it defaults to off. -/
def Options.default : Options :=
  { substituters_push := true
  , gzip := true
  , upload_keys := true
  , create_gc_roots := false
  , force_replace_unknown_profiles := false }

/-- `ParallelismLimit` as the apply command configures it: the apply
(deployment) concurrency installed with `set_apply_limit`. -/
structure ParallelismLimit where
  apply_limit : Nat
  deriving DecidableEq, Repr

/-- `EvaluationNodeLimit`: how many nodes to evaluate per batch. -/
inductive EvaluationNodeLimit where
  | Heuristic
  | None
  | Manual (n : Nat)
  deriving DecidableEq, Repr

/-- The user-visible arguments of `apply` that the embedded fragment of
`run` reads: the goal (clap restricts it to the seven valid names, parsed
by `Goal::from_str`), the boolean flags, the already-validated `parallel`
number, and the raw `eval-node-limit` argument. -/
structure ApplyArgs where
  goal : Goal
  no_keys : Bool
  no_substitutes : Bool
  no_gzip : Bool
  keep_result : Bool
  force_replace_unknown_profiles : Bool
  parallel : Nat
  eval_node_limit : String
  deriving DecidableEq, Repr

/-- Modelled from the spec: `str::parse::<usize>` on an argument string,
reading a nonempty all-digit string as the decimal number it denotes. -/
def parseUsize (s : String) : Option Nat :=
  match s.data with
  | [] => none
  | cs =>
      if cs.all Char.isDigit then
        some (cs.foldl (fun acc c => acc * 10 + (c.toNat - '0'.toNat)) 0)
      else
        none

/-- The `eval-node-limit` match in `run` (apply.rs lines 173-183):
"auto" becomes `Heuristic`; otherwise the argument is parsed as a number
(`none` here marks the `unwrap` panic on an unparsable argument, which
the clap validator rules out), with 0 becoming `None` and a positive n
becoming `Manual n`. -/
def evaluationNodeLimitFromArg (s : String) : Option EvaluationNodeLimit :=
  if s = "auto" then
    some EvaluationNodeLimit.Heuristic
  else
    (parseUsize s).map fun number =>
      if number = 0 then EvaluationNodeLimit.None else EvaluationNodeLimit.Manual number

/-- The configuration `run` installs on the deployment before invoking
`execute`. -/
structure DeploymentConfig where
  options : Options
  parallelism : ParallelismLimit
  evaluation_node_limit : EvaluationNodeLimit
  deriving DecidableEq, Repr

/-- How the embedded fragment of `run` ends: an early `quit::with_code`
exit, a panic from an `unwrap`, or `deployment.execute()` with the
installed configuration. -/
inductive RunOutcome where
  | exitWith (code : Nat)
  | panics
  | execute (cfg : DeploymentConfig)
  deriving DecidableEq, Repr

/-- The configuration fragment of `run` (apply.rs lines 139-190): builds
`Options` from the flags (apply.rs lines 139-153), errors out with exit
code 1 when `--no-keys` is combined with the keys goal (lines 155-158)
before any limit is installed and before `execute`, then installs the
parallelism limit (0 meaning `n_targets`, lines 160-171) and the
evaluation node limit (lines 173-183) and reaches `execute`. -/
def applyRun (a : ApplyArgs) (n_targets : Nat) : RunOutcome :=
  let options : Options :=
    { substituters_push := !a.no_substitutes
    , gzip := !a.no_gzip
    , upload_keys := !a.no_keys
    , force_replace_unknown_profiles := a.force_replace_unknown_profiles
    , create_gc_roots := if a.keep_result then true else Options.default.create_gc_roots }
  if a.no_keys && (a.goal == Goal.UploadKeys) then
    RunOutcome.exitWith 1
  else
    let apply_limit := if a.parallel = 0 then n_targets else a.parallel
    match evaluationNodeLimitFromArg a.eval_node_limit with
    | none => RunOutcome.panics
    | some evalLimit =>
        RunOutcome.execute
          { options := options
          , parallelism := { apply_limit := apply_limit }
          , evaluation_node_limit := evalLimit }

/-! ## Helper lemmas and concrete inputs -/

/-- A key with a populated group distinct from the user, showing which
field the accessors read. -/
def keyAliceWheel : Key :=
  { source := KeySource.Text "material"
  , dest_dir := "/run/keys"
  , user := "alice"
  , group := "wheel"
  , permissions := "0600" }

/-- A key whose command source is the empty vector; the conversion and
the field validators both accept it. -/
def keyEmptyCommand : Key :=
  { source := KeySource.Command []
  , dest_dir := "/run/keys"
  , user := "root"
  , group := "root"
  , permissions := "0600" }

/-- Arguments that hit the conflicting-flags check: keys goal with
`--no-keys`. -/
def argsNoKeysConflict : ApplyArgs :=
  { goal := Goal.UploadKeys
  , no_keys := true
  , no_substitutes := false
  , no_gzip := false
  , keep_result := false
  , force_replace_unknown_profiles := false
  , parallel := 10
  , eval_node_limit := "auto" }

/-- Default-flag arguments with an unbounded (`0`) parallelism request. -/
def argsParallelZero : ApplyArgs :=
  { goal := Goal.Switch
  , no_keys := false
  , no_substitutes := false
  , no_gzip := false
  , keep_result := false
  , force_replace_unknown_profiles := false
  , parallel := 0
  , eval_node_limit := "auto" }

/-- Arguments with every option-affecting flag raised. -/
def argsAllFlags : ApplyArgs :=
  { goal := Goal.Switch
  , no_keys := false
  , no_substitutes := true
  , no_gzip := true
  , keep_result := true
  , force_replace_unknown_profiles := true
  , parallel := 4
  , eval_node_limit := "auto" }

/-- Case analysis for the line-collection loop of `realize_remote`: all
lines valid yields the paths in order, any invalid line yields the
invalid-store-path error. -/
theorem collectStorePaths_spec (ls : List String) :
    if ls.all is_valid_store_path then
      collectStorePaths ls = .ok (ls.map fun s => ⟨s⟩)
    else
      collectStorePaths ls = .error NixError.InvalidStorePath := by
  induction ls with
  | nil => simp [collectStorePaths]
  | cons l rest ih =>
    by_cases hv : is_valid_store_path l = true
    · by_cases hr : rest.all is_valid_store_path = true
      · rw [if_pos hr] at ih
        rw [if_pos (by simp [List.all_cons, hv, hr])]
        simp [collectStorePaths, StorePath.tryFrom, hv, ih]
      · rw [if_neg hr] at ih
        rw [if_neg (by simp [List.all_cons, hv]; simpa using hr)]
        simp [collectStorePaths, StorePath.tryFrom, hv, ih]
    · rw [if_neg (by simp [List.all_cons]; intro h1; exact absurd h1 hv)]
      simp [collectStorePaths, StorePath.tryFrom, hv]

/-! ## Claim theorems -/

/-- C1: the claim says `group()` returns the group field, but the source
body of `Key::group` returns `&self.user`.  Evaluated at a key whose user
is "alice" and group is "wheel", the accessor yields "alice", diverging
from the stored group "wheel" (while `user()` does return the user). -/
theorem c1_group_accessor_returns_user_field :
    Key.group_get keyAliceWheel = "alice"
      ∧ keyAliceWheel.group = "wheel"
      ∧ Key.user_get keyAliceWheel = "alice" :=
  ⟨rfl, rfl, rfl⟩

/-- C2: when the goal is keys-only and `--no-keys` is set, `run` exits
with process code 1; by construction of the embedding this happens before
the limits are installed and before `deployment.execute()` is reached, so
no per-node task starts. -/
theorem c2_no_keys_with_keys_goal_exits_1 (a : ApplyArgs) (n : Nat)
    (h1 : a.no_keys = true) (h2 : a.goal = Goal.UploadKeys) :
    applyRun a n = RunOutcome.exitWith 1 := by
  simp [applyRun, h1, h2]

/-- Witness for C2 at the concrete conflicting arguments. -/
theorem c2_witness : applyRun argsNoKeysConflict 3 = RunOutcome.exitWith 1 :=
  c2_no_keys_with_keys_goal_exits_1 argsNoKeysConflict 3 rfl rfl

/-- C3: `realize_remote` parses the captured stdout line by line; when
every line is a valid store path it returns exactly those paths in line
order, and when any line is malformed it returns the
invalid-store-path (malformed output) error. -/
theorem c3_realize_remote_line_parsing (stdout : String) :
    if (rustLines stdout).all is_valid_store_path then
      realize_remote_parse stdout = .ok ((rustLines stdout).map fun s => ⟨s⟩)
    else
      realize_remote_parse stdout = .error NixError.InvalidStorePath := by
  unfold realize_remote_parse
  exact collectStorePaths_spec (rustLines stdout)

/-- C4: the `KeySources` to `KeySource` conversion succeeds exactly when
one of the three fields is populated, and on success the variant carries
the provided value. -/
theorem c4_key_source_conversion (ks : KeySources) :
    ((∃ s, KeySource.tryFrom ks = .ok s) ↔ ks.numPresent = 1)
      ∧ (∀ t, ks = ⟨some t, none, none⟩ →
          KeySource.tryFrom ks = .ok (KeySource.Text t))
      ∧ (∀ c, ks = ⟨none, some c, none⟩ →
          KeySource.tryFrom ks = .ok (KeySource.Command c))
      ∧ (∀ f, ks = ⟨none, none, some f⟩ →
          KeySource.tryFrom ks = .ok (KeySource.File f)) := by
  obtain ⟨t, c, f⟩ := ks
  cases t <;> cases c <;> cases f <;>
    simp [KeySource.tryFrom, KeySources.numPresent]

/-- Witness for C4: a text-only record converts to the text variant. -/
theorem c4_witness :
    KeySource.tryFrom ⟨some "material", none, none⟩
      = .ok (KeySource.Text "material") :=
  (c4_key_source_conversion ⟨some "material", none, none⟩).2.1 "material" rfl

/-- C5 counterexample: the claim asserts `reader()` cannot panic even for
a Command-sourced key with an empty command vector, but such a key passes
both the conversion and the field validators, and `reader` then indexes
`command[0]` out of bounds. -/
theorem c5_counterexample_empty_command_panics :
    KeySource.tryFrom ⟨none, some [], none⟩ = .ok (KeySource.Command [])
      ∧ Key.validate keyEmptyCommand = true
      ∧ Key.reader_outcome keyEmptyCommand = ReaderOutcome.panics :=
  ⟨rfl, rfl, rfl⟩

/-- C5 (amended): `reader` reaches a non-panicking outcome for every key
whose source is not an empty command vector; the indexing of the command
vector at positions 0 and 1.. is in bounds exactly when the vector is
nonempty. -/
theorem c5_reader_total_on_nonempty_commands (k : Key)
    (h : ∀ cmd, k.source = KeySource.Command cmd → cmd ≠ []) :
    k.reader_outcome ≠ ReaderOutcome.panics := by
  cases hs : k.source with
  | Text content => simp [Key.reader_outcome, hs]
  | Command command =>
      cases command with
      | nil => exact absurd rfl (h [] hs)
      | cons pathname argv => simp [Key.reader_outcome, hs]
  | File path => simp [Key.reader_outcome, hs]

/-- Witness for C5 at a concrete text-sourced key. -/
theorem c5_witness :
    Key.reader_outcome keyAliceWheel ≠ ReaderOutcome.panics :=
  c5_reader_total_on_nonempty_commands keyAliceWheel (fun _ hc => nomatch hc)

/-- C6: whenever `run` reaches `execute`, the installed apply limit is
`n_targets` when the parsed parallel value is 0 and the parsed value
itself otherwise. -/
theorem c6_parallel_limit (a : ApplyArgs) (n : Nat) (cfg : DeploymentConfig)
    (h : applyRun a n = RunOutcome.execute cfg) :
    cfg.parallelism.apply_limit = if a.parallel = 0 then n else a.parallel := by
  by_cases hc : (a.no_keys && (a.goal == Goal.UploadKeys)) = true
  · simp [applyRun, hc] at h
  · cases he : evaluationNodeLimitFromArg a.eval_node_limit with
    | none => simp [applyRun, hc, he] at h
    | some l =>
        simp [applyRun, hc, he] at h
        rw [← h]

/-- Witness for C6 with parallel 0 over 5 targets. -/
theorem c6_witness :
    (DeploymentConfig.mk
        ⟨true, true, true, false, false⟩ ⟨5⟩ EvaluationNodeLimit.Heuristic).parallelism.apply_limit
      = if (0 : Nat) = 0 then 5 else 0 :=
  c6_parallel_limit argsParallelZero 5 _ rfl

/-- C7: the eval-node-limit argument maps "auto" to `Heuristic`, a parsed
0 to `None` and a parsed positive n to `Manual n`. -/
theorem c7_eval_node_limit (s : String) (n : Nat) (h : parseUsize s = some n) :
    evaluationNodeLimitFromArg "auto" = some EvaluationNodeLimit.Heuristic
      ∧ evaluationNodeLimitFromArg s
          = some (if n = 0 then EvaluationNodeLimit.None
                  else EvaluationNodeLimit.Manual n) := by
  refine ⟨rfl, ?_⟩
  have hauto : parseUsize "auto" = none := by
    simp [parseUsize]
  have hs : s ≠ "auto" := by
    intro e
    rw [e, hauto] at h
    exact Option.noConfusion h
  simp [evaluationNodeLimitFromArg, hs, h]

/-- Witness for C7 at the argument "5". -/
theorem c7_witness :
    parseUsize "5" = some 5
      ∧ (evaluationNodeLimitFromArg "auto" = some EvaluationNodeLimit.Heuristic
          ∧ evaluationNodeLimitFromArg "5"
              = some (if 5 = 0 then EvaluationNodeLimit.None
                      else EvaluationNodeLimit.Manual 5)) :=
  ⟨rfl, c7_eval_node_limit "5" 5 rfl⟩

/-- C8: whenever `run` reaches `execute`, the installed options mirror
the flags exactly: substituters-push iff no `--no-substitutes`, gzip iff
no `--no-gzip`, upload-keys iff no `--no-keys`, create-gc-roots iff
`--keep-result`, force-replace-unknown-profiles iff its flag. -/
theorem c8_options_round_trip (a : ApplyArgs) (n : Nat) (cfg : DeploymentConfig)
    (h : applyRun a n = RunOutcome.execute cfg) :
    cfg.options.substituters_push = !a.no_substitutes
      ∧ cfg.options.gzip = !a.no_gzip
      ∧ cfg.options.upload_keys = !a.no_keys
      ∧ cfg.options.create_gc_roots = a.keep_result
      ∧ cfg.options.force_replace_unknown_profiles
          = a.force_replace_unknown_profiles := by
  by_cases hc : (a.no_keys && (a.goal == Goal.UploadKeys)) = true
  · simp [applyRun, hc] at h
  · cases he : evaluationNodeLimitFromArg a.eval_node_limit with
    | none => simp [applyRun, hc, he] at h
    | some l =>
        simp [applyRun, hc, he] at h
        rw [← h]
        refine ⟨rfl, rfl, rfl, ?_, rfl⟩
        cases a.keep_result <;> rfl

/-- Witness for C8 with every option-affecting flag raised. -/
theorem c8_witness :
    (DeploymentConfig.mk
        ⟨false, false, true, true, true⟩ ⟨4⟩ EvaluationNodeLimit.Heuristic).options.substituters_push
        = !true
      ∧ (DeploymentConfig.mk
          ⟨false, false, true, true, true⟩ ⟨4⟩ EvaluationNodeLimit.Heuristic).options.gzip
        = !true
      ∧ (DeploymentConfig.mk
          ⟨false, false, true, true, true⟩ ⟨4⟩ EvaluationNodeLimit.Heuristic).options.upload_keys
        = !false
      ∧ (DeploymentConfig.mk
          ⟨false, false, true, true, true⟩ ⟨4⟩ EvaluationNodeLimit.Heuristic).options.create_gc_roots
        = true
      ∧ (DeploymentConfig.mk
          ⟨false, false, true, true, true⟩ ⟨4⟩
          EvaluationNodeLimit.Heuristic).options.force_replace_unknown_profiles
        = true :=
  c8_options_round_trip argsAllFlags 7 _ rfl

/-- C9: `Local::activate` returns `Unsupported` for non-real goals —
with no effects issued, since the error return precedes both the profile
switch and the activation command — and for real goals issues the profile
switch first (exactly when the goal switches profiles) followed by the
activation command invoked with the goal name. -/
theorem c9_local_activate (l : Local) (p : Profile) (g : Goal) :
    (g.is_real_goal = false →
        Local.activate l p g = ActivateOutcome.error NixError.Unsupported)
      ∧ (g.is_real_goal = true →
          Local.activate l p g =
            ActivateOutcome.ran
              ((if g.should_switch_profile then
                  [ActivateEffect.setProfile
                    ["nix-env", "--profile", SYSTEM_PROFILE, "--set", p.path.path]]
                else []) ++
               [ActivateEffect.runActivation
                 [p.path.path ++ "/bin/switch-to-configuration", g.name]])) := by
  constructor
  · intro h
    simp [Local.activate, h]
  · intro h
    simp [Local.activate, Profile.activation_command, h]

/-- Witness for C9 at the switch goal on a concrete profile. -/
theorem c9_witness :
    Local.activate (Local.new []) ⟨⟨"/nix/store/abc-system"⟩⟩ Goal.Switch =
      ActivateOutcome.ran
        ((if Goal.should_switch_profile Goal.Switch then
            [ActivateEffect.setProfile
              ["nix-env", "--profile", SYSTEM_PROFILE, "--set", "/nix/store/abc-system"]]
          else []) ++
         [ActivateEffect.runActivation
           ["/nix/store/abc-system" ++ "/bin/switch-to-configuration",
            Goal.name Goal.Switch]]) :=
  (c9_local_activate (Local.new []) ⟨⟨"/nix/store/abc-system"⟩⟩ Goal.Switch).2 rfl

/-- C10: `Local::copy_closure` returns `Ok(())` for every closure,
direction and options, and leaves the driver state (attached job and nix
options) unchanged. -/
theorem c10_copy_closure_noop (l : Local) (closure : StorePath)
    (direction : CopyDirection) (options : CopyOptions) :
    Local.copy_closure l closure direction options = (.ok (), l) :=
  rfl

end Colmena
